import Mathlib

/-!
Shallow embedding of `xpu_monitor.py`, a terminal dashboard that parses the
CSV stream of an external metrics tool and renders per-device gauges.

Modelling conventions:
* Python floats are modelled as exact rationals (`ℚ`); the claims under
  study only involve values and arithmetic that are exact in both models.
  Non-finite float literals ("inf", "nan") and digit-group underscores
  accepted by Python numeric constructors are outside the model.
* Python strings are Lean `String`; `str.strip` is modelled over the ASCII
  whitespace characters.
* `csv.reader(..., skipinitialspace=True)` is embedded for quote-free input
  (every line the claims exercise is quote-free): split on commas, then drop
  the spaces that immediately follow a delimiter (CPython also skips them at
  the start of the first field, which the embedding mirrors).
* Subprocess invocations are inputs of the embedded functions: an invocation
  outcome is spawn failure, a non-zero exit, or captured stdout.
-/

namespace XpuMonitor

/-- ANSI reset sequence (`RESET` in the source). -/
def RESET : String := "\x1b[0m"

/-- Green foreground (`COLOR_GREEN`). -/
def COLOR_GREEN : String := "\x1b[38;5;40m"

/-- Yellow foreground (`COLOR_YELLOW`). -/
def COLOR_YELLOW : String := "\x1b[38;5;214m"

/-- Red foreground (`COLOR_RED`). -/
def COLOR_RED : String := "\x1b[38;5;203m"

/-- Dim attribute (`COLOR_DIM`). -/
def COLOR_DIM : String := "\x1b[2m"

/-- Bold attribute (`COLOR_BOLD`). -/
def COLOR_BOLD : String := "\x1b[1m"

/-- Clear-screen sequence (`CLEAR_SCREEN`). -/
def CLEAR_SCREEN : String := "\x1b[2J"

/-- Cursor-home sequence (`CURSOR_HOME`). -/
def CURSOR_HOME : String := "\x1b[H"

/-- The block character used for bars (`BLOCK`). -/
def BLOCK : Char := '█'

/-- Sentinel command name requesting auto-detection (`AUTO_CMD`). -/
def AUTO_CMD : String := "auto"

/-- Fallback candidate executables tried for the auto sentinel
(`CMD_FALLBACKS`). -/
def CMD_FALLBACKS : List String := ["xpumcli", "xpu-smi"]

/-- Static metadata for one device (`DeviceMetadata` dataclass). -/
structure DeviceMetadata where
  name : Option String := none
  memory_total_mib : Option ℚ := none
deriving DecidableEq, Repr

/-- One parsed sample for one device (`DeviceSample` dataclass). -/
structure DeviceSample where
  timestamp : String
  mem_used_mib : Option ℚ := none
  mem_util_percent : Option ℚ := none
  power_watts : Option ℚ := none
  temp_c : Option ℚ := none
deriving DecidableEq, Repr

/-! ## Python string primitives -/

/-- ASCII whitespace recognised by `str.strip`. -/
def isPySpace (c : Char) : Bool :=
  c = ' ' || c = '\t' || c = '\n' || c = '\r' || c = '\x0b' || c = '\x0c'

/-- Drop trailing characters satisfying `p`. -/
def dropTrailingWhile (p : Char → Bool) (cs : List Char) : List Char :=
  (cs.reverse.dropWhile p).reverse

/-- Python `str.strip()` (whitespace on both ends). -/
def pyStrip (s : String) : String :=
  String.mk (dropTrailingWhile isPySpace (s.data.dropWhile isPySpace))

/-- Python `str.rstrip()` (whitespace on the right end). -/
def pyRstrip (s : String) : String :=
  String.mk (dropTrailingWhile isPySpace s.data)

/-- Python `str.strip(chars)` for an explicit character set. -/
def pyStripChars (chars : List Char) (s : String) : String :=
  String.mk (dropTrailingWhile (chars.contains ·) (s.data.dropWhile (chars.contains ·)))

/-- Python `sep.join(parts)`. -/
def pyJoin (sep : String) : List String → String
  | [] => ""
  | [x] => x
  | x :: y :: rest => x ++ sep ++ pyJoin sep (y :: rest)

/-- Python `max(iterable, default=d)` over strings (lexicographic by code
point, the first maximal element wins, matching `max`). -/
def pyMaxStr (l : List String) (d : String) : String :=
  match l with
  | [] => d
  | x :: xs => xs.foldl (fun a b => if a < b then b else a) x

/-! ## Python numeric parsing -/

/-- Numeric value of a list of decimal digits. -/
def digitsToNat (cs : List Char) : Nat :=
  cs.foldl (fun a c => a * 10 + (c.toNat - 48)) 0

/-- True when `cs` is a nonempty run of decimal digits. -/
def isDigitRun (cs : List Char) : Bool :=
  !cs.isEmpty && cs.all Char.isDigit

/-- Core of Python `int(str)` on an already stripped string: optional sign
followed by decimal digits. -/
def pyIntCore : List Char → Option Int
  | '+' :: rest => if isDigitRun rest then some (digitsToNat rest : Int) else none
  | '-' :: rest => if isDigitRun rest then some (-(digitsToNat rest : Int)) else none
  | cs => if isDigitRun cs then some (digitsToNat cs : Int) else none

/-- Split a character list at the first character satisfying `p`; the second
component is `none` when no such character occurs. -/
def splitOnceBy (p : Char → Bool) : List Char → List Char × Option (List Char)
  | [] => ([], none)
  | c :: rest =>
    if p c then ([], some rest)
    else
      let (a, b) := splitOnceBy p rest
      (c :: a, b)

/-- Core of Python `float(str)` on an already stripped string: optional sign,
decimal mantissa with optional fractional part, optional decimal exponent.
The exact value of the accepted literal `[s] ip.fp e[t]x` is
`s * (ip * 10^|fp| + fp) * 10^(±x) / 10^|fp|`, built here with integer
arithmetic through `mkRat`. -/
def pyFloatCore (cs : List Char) : Option ℚ :=
  let (neg, cs) :=
    match cs with
    | '+' :: rest => (false, rest)
    | '-' :: rest => (true, rest)
    | _ => (false, cs)
  let (mant, expPart) := splitOnceBy (fun c => c = 'e' || c = 'E') cs
  let (ip, fpOpt) := splitOnceBy (fun c => c = '.') mant
  let fp := fpOpt.getD []
  if ip.all Char.isDigit && fp.all Char.isDigit && (!ip.isEmpty || !fp.isEmpty) then
    let mag : Nat := digitsToNat ip * 10 ^ fp.length + digitsToNat fp
    let build : Nat → Nat → Option ℚ := fun num den10 =>
      some (mkRat (if neg then -(num : ℤ) else (num : ℤ)) (10 ^ den10))
    match expPart with
    | none => build mag fp.length
    | some es =>
      let (epos, es) :=
        match es with
        | '+' :: rest => (true, rest)
        | '-' :: rest => (false, rest)
        | _ => (true, es)
      if isDigitRun es then
        let e := digitsToNat es
        if epos then build (mag * 10 ^ e) fp.length else build mag (fp.length + e)
      else none
  else none

/-- `to_float` from the source: `None` and blank strings give `None`,
unparseable content gives `None`, otherwise the parsed value. -/
def to_float (value : Option String) : Option ℚ :=
  match value with
  | none => none
  | some v =>
    let v := pyStrip v
    if v = "" then none else pyFloatCore v.data

/-- `parse_int` from the source: `None` and blank strings give `None`,
unparseable content gives `None`, otherwise the parsed integer. -/
def parse_int (value : Option String) : Option Int :=
  match value with
  | none => none
  | some v =>
    let v := pyStrip v
    if v = "" then none else pyIntCore v.data

/-- `parse_mib` from the source: strip every occurrence of the literal
`MiB`, strip whitespace, then parse as a float. -/
def parse_mib (value : Option String) : Option ℚ :=
  match value with
  | none => none
  | some v => to_float (some (pyStrip (v.replace "MiB" "")))

/-! ## Python fixed-point formatting -/

/-- Round `x * 10 ^ p` to the nearest integer, ties to even (the rounding
used by CPython fixed-point formatting; the binary representation error of
CPython floats is outside the rational model). Written over the numerator
and denominator of `x`: with `n = x.num * 10 ^ p` and `d = x.den`, the value
to round is `n / d`, its floor is `q`, and the fractional remainder `r / d`
is compared against one half. -/
def roundHalfEven (x : ℚ) (p : Nat) : ℤ :=
  let n := x.num * (10 : ℤ) ^ p
  let d : ℤ := (x.den : ℤ)
  let q := Int.fdiv n d
  let r := n - q * d
  if 2 * r < d then q
  else if d < 2 * r then q + 1
  else if q % 2 = 0 then q else q + 1

/-- Left-pad a string with `c` to length `w`. -/
def leftPad (c : Char) (w : Nat) (s : String) : String :=
  String.mk (List.replicate (w - s.length) c) ++ s

/-- Python `format(x, str(minWidth) ++ "." ++ str(prec) ++ "f")`: fixed-point
with `prec` digits after the point, right-aligned to at least `minWidth`. -/
def pyFormatFixed (minWidth prec : Nat) (x : ℚ) : String :=
  let scaled := roundHalfEven x prec
  let mag := scaled.natAbs
  let ipStr := toString (mag / 10 ^ prec)
  let body := if prec = 0 then ipStr else ipStr ++ "." ++ leftPad '0' prec (toString (mag % 10 ^ prec))
  let body := if x < 0 then "-" ++ body else body
  leftPad ' ' minWidth body

/-! ## CSV line parsing -/

/-- The field transformation of `skipinitialspace=True`: spaces immediately
following a delimiter (and, in CPython, at the start of the first field) are
dropped; other whitespace is kept. -/
def skipInitialSpaces (cs : List Char) : List Char :=
  cs.dropWhile (· = ' ')

/-- Split a character list at every comma; the result always has one field
more than the line has commas (so the empty line gives one empty field). -/
def splitFieldsOnComma : List Char → List (List Char)
  | [] => [[]]
  | c :: rest =>
    if c = ',' then [] :: splitFieldsOnComma rest
    else
      match splitFieldsOnComma rest with
      | f :: fs => (c :: f) :: fs
      | [] => [[c]]

/-- Split one quote-free CSV line (no trailing newline) into fields, the way
`csv.reader` with `skipinitialspace=True` does. -/
def csvSplitRow (s : String) : List String :=
  (splitFieldsOnComma s.data).map (fun f => String.mk (skipInitialSpaces f))

/-- End-of-line characters recognised by the csv reader. -/
def isEol (c : Char) : Bool := c = '\n' || c = '\r'

/-- `parse_csv_line` from the source: read one line with csv semantics; a
blank line gives the empty row (the `next(reader, [])` default and the empty
row of a bare newline coincide in the embedding). -/
def parse_csv_line (line : String) : List String :=
  let cs := dropTrailingWhile isEol line.data
  if cs.isEmpty then [] else csvSplitRow (String.mk cs)

/-- Lookup in `dict(zip(headers, row))`: pairs are zipped (truncating to the
shorter list) and a later duplicate key overwrites an earlier one. -/
def rowGet (hs vs : List String) (k : String) : Option String :=
  (((hs.zip vs).filter (fun p => p.1 = k)).getLast?).map (·.2)

/-- Python truthiness filter for an optional string: `None` and the empty
string are falsy. -/
def truthyStr : Option String → Option String
  | none => none
  | some s => if s = "" then none else some s

/-! ## Association lists as insertion-ordered dicts -/

/-- Write `k ↦ v` into an insertion-ordered association list: replace the
value in place when the key exists, else append (Python dict assignment and
the net effect of `setdefault` followed by mutation). -/
def assocSet {α : Type} (m : List (Int × α)) (k : Int) (v : α) : List (Int × α) :=
  match m with
  | [] => [(k, v)]
  | (k0, v0) :: rest => if k0 = k then (k, v) :: rest else (k0, v0) :: assocSet rest k v

/-- Read a key with a default (`dict.get(k, d)` / the current value seen by
`setdefault`). -/
def assocGetD {α : Type} (m : List (Int × α)) (k : Int) (d : α) : α :=
  match m.find? (fun p => p.1 = k) with
  | some p => p.2
  | none => d

/-! ## Metadata discovery (`fetch_device_metadata`) -/

/-- Outcome of a `subprocess.run(..., check=True)` invocation: the OS fails
to spawn the executable, the child exits non-zero (`CalledProcessError`), or
the child succeeds with captured stdout. -/
inductive RunOutcome where
  | spawnFailure
  | nonZeroExit
  | success (stdout : String)
deriving DecidableEq, Repr

/-- One entry of the decoded `device_list` of `discovery -j`. The json
decoding itself is abstracted: a decoded entry carries an optional integer
device id (the `int(...)` coercion of a well-formed id) and an optional name. -/
structure JsonItem where
  device_id : Option Int := none
  device_name : Option String := none
deriving DecidableEq, Repr

/-- Outcome of the `discovery -j` invocation: spawn failure, non-zero exit,
output that `json.loads` rejects (`JSONDecodeError`), or a decoded document
whose `device_list` is the given entries (a missing key gives `[]`). -/
inductive JsonRunOutcome where
  | spawnFailure
  | nonZeroExit
  | jsonError
  | parsed (deviceList : List JsonItem)
deriving DecidableEq, Repr

/-- The nonempty lines of a captured stdout:
`filter(None, dump_output.splitlines())`. -/
def nonEmptyLines (s : String) : List String :=
  (s.splitOn "\n").filter (fun l => l ≠ "")

/-- Parse the tabular `discovery --dump 1,2,16` output into metadata: first
row is the header, rows of the wrong width are skipped, the device id is
mandatory, a truthy name is stripped of quotes and spaces, and a parseable
memory size overwrites the total. -/
def parseDiscoveryDump (s : String) : List (Int × DeviceMetadata) :=
  let rows := (nonEmptyLines s).map csvSplitRow
  match rows with
  | [] => []
  | headers :: rest =>
    rest.foldl
      (fun m row =>
        if row.length ≠ headers.length then m
        else
          match parse_int (rowGet headers row "Device ID") with
          | none => m
          | some device_id =>
            let info := assocGetD m device_id {}
            let info :=
              match truthyStr (rowGet headers row "Device Name") with
              | some n => { info with name := some (pyStripChars ['"', ' '] n) }
              | none => info
            let info :=
              match parse_mib (rowGet headers row "Memory Physical Size") with
              | some total => { info with memory_total_mib := some total }
              | none => info
            assocSet m device_id info)
      []

/-- Fold the decoded `discovery -j` entries into the metadata: entries with
no id are skipped, and a truthy name fills or overwrites `name` only. -/
def applyJsonDiscovery (m : List (Int × DeviceMetadata)) (items : List JsonItem) :
    List (Int × DeviceMetadata) :=
  items.foldl
    (fun m item =>
      match item.device_id with
      | none => m
      | some device_id =>
        let info := assocGetD m device_id {}
        let info :=
          match truthyStr item.device_name with
          | some n => { info with name := some n }
          | none => info
        assocSet m device_id info)
    m

/-- `fetch_device_metadata` from the source, as a function of the two
invocation outcomes. The first `try` block catches only `CalledProcessError`,
the second catches `CalledProcessError` and `JSONDecodeError`; an OS-level
spawn failure is caught by neither and escapes as `Except.error`. -/
def fetch_device_metadata (out1 : RunOutcome) (out2 : JsonRunOutcome) :
    Except Unit (List (Int × DeviceMetadata)) := do
  let metadata ←
    match out1 with
    | .spawnFailure => Except.error ()
    | .nonZeroExit => Except.ok []
    | .success stdout => Except.ok (parseDiscoveryDump stdout)
  match out2 with
  | .spawnFailure => Except.error ()
  | .nonZeroExit => Except.ok metadata
  | .jsonError => Except.ok metadata
  | .parsed items => Except.ok (applyJsonDiscovery metadata items)

/-! ## Command resolution (`resolve_command`) and the fatal path of `main` -/

/-- The ambient filesystem and search path, as seen by `shutil.which`,
`os.path.exists` and `os.access(..., X_OK)`. -/
structure FsEnv where
  which : String → Option String
  pathExists : String → Bool
  executable : String → Bool

/-- `os.path.isabs` on a posix path. -/
def isAbs (s : String) : Bool := s.startsWith "/"

/-- The candidate list of `resolve_command`: the fallback pair for the auto
sentinel, else the single requested name or path. -/
def pyCandidates (binary : String) : List String :=
  if binary = AUTO_CMD then CMD_FALLBACKS else [binary]

/-- The `FileNotFoundError` message raised when no candidate resolves. -/
def resolveErrMsg (errors : List String) : String :=
  "Unable to find any of: " ++ pyJoin ", " errors ++
    ". Set --cmd or XPUM_MONITOR_CMD to xpumcli/xpu-smi full path."

/-- The candidate loop of `resolve_command`: an absolute path must exist and
be executable, a bare name goes through the search path; every failed
candidate is appended to `errors`. -/
def resolveGo (env : FsEnv) : List String → List String → Except String String
  | [], errors => Except.error (resolveErrMsg errors)
  | c :: rest, errors =>
    if isAbs c then
      if env.pathExists c && env.executable c then Except.ok c
      else resolveGo env rest (errors ++ [c])
    else
      match env.which c with
      | some resolved => Except.ok resolved
      | none => resolveGo env rest (errors ++ [c])

/-- `resolve_command` from the source: `Except.error` is the raised
`FileNotFoundError` message. -/
def resolve_command (env : FsEnv) (binary : String) : Except String String :=
  resolveGo env (pyCandidates binary) []

/-- True when `resolve_command` rejects this single candidate. -/
def candidateFails (env : FsEnv) (c : String) : Bool :=
  if isAbs c then !(env.pathExists c && env.executable c) else (env.which c).isNone

/-- Observable outcome of `main` up to command resolution. `resolve_command`
is the first action of `monitor_loop` (before metadata fetch, alternate
screen entry and any render), and `main` turns its `FileNotFoundError` into
one line on stderr and `sys.exit(1)`; `renders` counts dashboard writes made
before exiting. -/
inductive MainOutcome where
  | exited (code : Nat) (stderrText : String) (renders : Nat)
  | streaming (cmdPath : String)
deriving DecidableEq, Repr

/-- The startup path of `main` / `monitor_loop` as a function of the ambient
environment and the requested command. -/
def mainStartup (env : FsEnv) (binary : String) : MainOutcome :=
  match resolve_command env binary with
  | Except.error msg => MainOutcome.exited 1 (msg ++ "\n") 0
  | Except.ok cmdPath => MainOutcome.streaming cmdPath

/-! ## Bars and colors -/

/-- `color_for_percent` from the source. -/
def color_for_percent (percent : ℚ) : String :=
  if percent ≥ 85 then COLOR_RED
  else if percent ≥ 60 then COLOR_YELLOW
  else COLOR_GREEN

/-- The clamp applied at the top of `format_bar`:
`max(0.0, min(100.0, percent))`. -/
def pyClamp (percent : ℚ) : ℚ := max 0 (min 100 percent)

/-- Number of filled blocks: `int((percent / 100.0) * width)` on the clamped
percent; the argument is nonnegative there, so `int` truncation is the
floor. -/
def filledCount (percent : ℚ) (width : Nat) : Nat :=
  (⌊pyClamp percent / 100 * (width : ℚ)⌋).toNat

/-- Number of trailing dimmed blocks: `width - filled`. -/
def remainingCount (percent : ℚ) (width : Nat) : Nat :=
  width - filledCount percent width

/-- `format_bar` from the source: colored filled blocks, dimmed remainder,
then the clamped percentage to one decimal place. -/
def format_bar (percent : ℚ) (width : Nat) : String :=
  let percent := pyClamp percent
  let filled := filledCount percent width
  let remaining := remainingCount percent width
  let bar := color_for_percent percent ++ String.mk (List.replicate filled BLOCK) ++ RESET
  let bar :=
    if remaining > 0 then bar ++ COLOR_DIM ++ String.mk (List.replicate remaining BLOCK) ++ RESET
    else bar
  bar ++ " " ++ pyFormatFixed 5 1 percent ++ "%"

/-! ## The streaming loop transition (`monitor_loop` body) -/

/-- Mutable state of the read loop: the active header row (if captured) and
the sample store keyed by device id, in insertion order. -/
structure LoopState where
  headers : Option (List String)
  store : List (Int × DeviceSample)
deriving DecidableEq, Repr

/-- The per-line transition of `monitor_loop` on an already csv-parsed row:
empty rows are skipped, a row whose first field is `Timestamp` becomes the
active header, rows with no active header or the wrong width are skipped, a
row with no parseable `DeviceId` is skipped, and otherwise each metric field
is independently read through `to_float` into a fresh sample. -/
def stepParsed (st : LoopState) (parsed : List String) : LoopState :=
  match parsed with
  | [] => st
  | f0 :: _ =>
    if f0 = "Timestamp" then { st with headers := some parsed }
    else
      match st.headers with
      | none => st
      | some hs =>
        if parsed.length ≠ hs.length then st
        else
          match parse_int (rowGet hs parsed "DeviceId") with
          | none => st
          | some device_id =>
            let sample : DeviceSample :=
              { timestamp := (rowGet hs parsed "Timestamp").getD ""
                mem_used_mib := to_float (rowGet hs parsed "GPU Memory Used (MiB)")
                mem_util_percent := to_float (rowGet hs parsed "GPU Memory Utilization (%)")
                power_watts := to_float (rowGet hs parsed "GPU Power (W)")
                temp_c := to_float (rowGet hs parsed "GPU Core Temperature (Celsius Degree)") }
            { st with store := assocSet st.store device_id sample }

/-- The per-line transition of `monitor_loop` on a raw stream line. -/
def stepLine (st : LoopState) (line : String) : LoopState :=
  stepParsed st (parse_csv_line line)

/-- The loop state before any line has been read. -/
def initialLoopState : LoopState := { headers := none, store := [] }

/-! ## Rendering (`render_dashboard`) -/

/-- Python `x or 0.0` on an optional float: `None` (and a zero value) give
`0.0`, which coincides with defaulting to `0`. -/
def pyOrZero (o : Option ℚ) : ℚ := o.getD 0

/-- The `mem_line` local of `render_dashboard`: used amount in GiB, plus the
total in GiB when the metadata total is truthy (present and nonzero). -/
def mem_lineOf (sample : DeviceSample) (meta : DeviceMetadata) : String :=
  let mem_used_mib := pyOrZero sample.mem_used_mib
  let base := pyFormatFixed 6 2 (mem_used_mib / 1024) ++ " GiB"
  match meta.memory_total_mib with
  | some total => if total ≠ 0 then base ++ " / " ++ pyFormatFixed 6 2 (total / 1024) ++ " GiB" else base
  | none => base

/-- The `mem_percent` value that reaches `format_bar`: the reported
utilization when present; else, when the metadata total is truthy and
positive, the derived `used / total * 100`; else `0.0`. -/
def memPercentOf (sample : DeviceSample) (meta : DeviceMetadata) : ℚ :=
  let mem_used_mib := pyOrZero sample.mem_used_mib
  let mem_percent :=
    match meta.memory_total_mib with
    | some total =>
      if total ≠ 0 then
        match sample.mem_util_percent with
        | none => if total > 0 then some (mem_used_mib / total * 100) else none
        | some p => some p
      else sample.mem_util_percent
    | none => sample.mem_util_percent
  mem_percent.getD 0

/-- The `power_str` local: one decimal place with unit, or the fixed-width
placeholder. -/
def power_strOf (sample : DeviceSample) : String :=
  match sample.power_watts with
  | some p => pyFormatFixed 6 1 p ++ " W"
  | none => "  N/A  "

/-- The `temp_str` local: one decimal place with unit, or the fixed-width
placeholder. -/
def temp_strOf (sample : DeviceSample) : String :=
  match sample.temp_c with
  | some t => pyFormatFixed 5 1 t ++ " °C"
  | none => "  N/A  "

/-- The `device_label` local: a truthy metadata name, else a synthesized
label. -/
def device_labelOf (meta : DeviceMetadata) (device_id : Int) : String :=
  match truthyStr meta.name with
  | some n => n
  | none => "Device " ++ toString device_id

/-- The three text lines of one device section. -/
def deviceSection (metadata : List (Int × DeviceMetadata)) (bar_width : Nat)
    (store : List (Int × DeviceSample)) (device_id : Int) : List String :=
  let sample := assocGetD store device_id { timestamp := "" }
  let meta := assocGetD metadata device_id {}
  [COLOR_BOLD ++ device_labelOf meta device_id ++ RESET ++ " (ID " ++ toString device_id ++ ")",
   "  Mem " ++ mem_lineOf sample meta ++ " | " ++ format_bar (memPercentOf sample meta) bar_width,
   "  Power " ++ power_strOf sample ++ " | Temp " ++ temp_strOf sample]

/-- The render order: `sorted(device_stats)` sorts the device ids
ascending. -/
def sortedIds (store : List (Int × DeviceSample)) : List Int :=
  List.insertionSort (· ≤ ·) (store.map Prod.fst)

/-- The per-device body: each section is followed by the divider except
after the last device, and every section is followed by a blank line. -/
def deviceBody (metadata : List (Int × DeviceMetadata)) (bar_width : Nat)
    (store : List (Int × DeviceSample)) (divider : String) : List Int → List String
  | [] => []
  | [device_id] => deviceSection metadata bar_width store device_id ++ [""]
  | device_id :: next :: rest =>
    deviceSection metadata bar_width store device_id ++ [divider, ""] ++
      deviceBody metadata bar_width store divider (next :: rest)

/-- `render_dashboard` from the source, returning the list of stdout writes
it performs (`term_width` is the ambient terminal width read inside). An
empty store returns before building anything; otherwise `clear_and_write`
performs exactly one write of the clear sequence, cursor home, and payload. -/
def render_dashboard (store : List (Int × DeviceSample))
    (metadata : List (Int × DeviceMetadata)) (bar_width : Nat) (term_width : Int) :
    List String :=
  if store.isEmpty then []
  else
    let latest_ts := pyMaxStr ((store.map (fun p => p.2.timestamp)).filter (fun t => t ≠ "")) "N/A"
    let divider_width := (max 20 (min 100 term_width)).toNat
    let divider := COLOR_DIM ++ String.mk (List.replicate divider_width '—') ++ RESET
    let headerLines :=
      [COLOR_BOLD ++ "Intel XPU Monitor" ++ RESET ++ " — Last update: " ++ latest_ts,
       "Press CTRL+C to exit. Source: xpumcli dump",
       ""]
    let lines := headerLines ++ deviceBody metadata bar_width store divider (sortedIds store)
    let payload := pyRstrip (pyJoin "\n" lines) ++ "\n"
    [CLEAR_SCREEN ++ CURSOR_HOME ++ payload]

/-! ## Shared helper lemmas -/

/-- A sample with an empty timestamp and no metric values. -/
def blankSample : DeviceSample := { timestamp := "" }

/-- A filesystem environment in which nothing exists and nothing is on the
search path. -/
def emptyEnv : FsEnv where
  which := fun _ => none
  pathExists := fun _ => false
  executable := fun _ => false

lemma memPercentOf_reported (sample : DeviceSample) (meta : DeviceMetadata) (p : ℚ)
    (h : sample.mem_util_percent = some p) : memPercentOf sample meta = p := by
  unfold memPercentOf
  rcases meta.memory_total_mib with _ | total
  · simp [h]
  · by_cases ht : total = 0 <;> simp [h, ht]

lemma memPercentOf_derived (sample : DeviceSample) (meta : DeviceMetadata) (total : ℚ)
    (hu : sample.mem_util_percent = none) (ht : meta.memory_total_mib = some total)
    (hpos : 0 < total) :
    memPercentOf sample meta = pyOrZero sample.mem_used_mib / total * 100 := by
  unfold memPercentOf
  rw [ht]
  simp [hu, ne_of_gt hpos, hpos]

lemma memPercentOf_no_total (sample : DeviceSample) (meta : DeviceMetadata)
    (hu : sample.mem_util_percent = none) (ht : meta.memory_total_mib = none) :
    memPercentOf sample meta = 0 := by
  unfold memPercentOf
  rw [ht]
  simp [hu]

lemma memPercentOf_nonpos_total (sample : DeviceSample) (meta : DeviceMetadata) (total : ℚ)
    (hu : sample.mem_util_percent = none) (ht : meta.memory_total_mib = some total)
    (hnp : total ≤ 0) :
    memPercentOf sample meta = 0 := by
  unfold memPercentOf
  rw [ht]
  rcases eq_or_lt_of_le hnp with h0 | hneg
  · simp [h0, hu]
  · simp [hu, ne_of_lt hneg, not_lt.mpr hneg.le]

/-! ## Claim theorems -/

/-- C10: with an empty sample store, `render_dashboard` returns immediately
and performs no terminal write at all: no clear sequence and no payload. -/
theorem empty_store_renders_nothing (metadata : List (Int × DeviceMetadata))
    (bar_width : Nat) (term_width : Int) :
    render_dashboard [] metadata bar_width term_width = [] := rfl

/-- C9: the renderer iterates the store in ascending device-id order: for
every store, the id list passed to the render loop is sorted and is a
permutation of the stored ids, and in particular samples arriving for ids
3, 1, 2 render in order 1, 2, 3. -/
theorem render_order_ascending :
    (∀ store : List (Int × DeviceSample),
      List.Sorted (· ≤ ·) (sortedIds store) ∧ (sortedIds store).Perm (store.map Prod.fst)) ∧
    sortedIds (assocSet (assocSet (assocSet [] 3 blankSample) 1 blankSample) 2 blankSample) =
      [1, 2, 3] :=
  ⟨fun store => ⟨List.sorted_insertionSort _ _, List.perm_insertionSort _ _⟩, by decide⟩

/-- C8: the bar color is red for percent at least 85, yellow for percent in
[60, 85), green below 60; both thresholds are closed at the boundary. -/
theorem color_threshold_boundaries (p : ℚ) :
    (85 ≤ p → color_for_percent p = COLOR_RED) ∧
    (60 ≤ p → p < 85 → color_for_percent p = COLOR_YELLOW) ∧
    (p < 60 → color_for_percent p = COLOR_GREEN) := by
  refine ⟨fun h => ?_, fun h1 h2 => ?_, fun h => ?_⟩ <;>
    simp only [color_for_percent, ge_iff_le] <;> split_ifs <;>
    first
    | rfl
    | (exfalso; linarith)

/-- Witness for C8 at the boundary inputs 85, 60 and 59.9. -/
theorem color_threshold_boundaries_witness :
    color_for_percent 85 = COLOR_RED ∧ color_for_percent 60 = COLOR_YELLOW ∧
      color_for_percent (599 / 10) = COLOR_GREEN :=
  ⟨(color_threshold_boundaries 85).1 (by norm_num),
   (color_threshold_boundaries 60).2.1 (by norm_num) (by norm_num),
   (color_threshold_boundaries (599 / 10)).2.2 (by norm_num)⟩

/-- C2 counterexample: an OS-level spawn failure of the first discovery
invocation is caught by neither handler and escapes
`fetch_device_metadata`, so the function does not swallow every possible
subprocess outcome. -/
theorem fetch_metadata_spawn_failure_escapes :
    fetch_device_metadata RunOutcome.spawnFailure JsonRunOutcome.nonZeroExit =
      Except.error () := rfl

/-- C2 amended: for every outcome of the two discovery invocations other
than a spawn failure (non-zero exit, arbitrary tabular stdout, undecodable
json, arbitrary decoded device list), `fetch_device_metadata` swallows the
failure and returns a possibly incomplete metadata mapping. -/
theorem fetch_metadata_swallows_child_failures (out1 : RunOutcome) (out2 : JsonRunOutcome)
    (h1 : out1 ≠ RunOutcome.spawnFailure) (h2 : out2 ≠ JsonRunOutcome.spawnFailure) :
    ∃ m, fetch_device_metadata out1 out2 = Except.ok m := by
  cases out1 <;> cases out2 <;> first
  | exact absurd rfl h1
  | exact absurd rfl h2
  | exact ⟨_, rfl⟩

/-- Witness for C2 amended: both invocations exiting non-zero / undecodable
still produce a metadata mapping. -/
theorem fetch_metadata_swallows_child_failures_witness :
    ∃ m, fetch_device_metadata RunOutcome.nonZeroExit JsonRunOutcome.jsonError = Except.ok m :=
  fetch_metadata_swallows_child_failures RunOutcome.nonZeroExit JsonRunOutcome.jsonError
    (by decide) (by decide)

/-- C5: the bar percent prefers the reported utilization; with no reported
utilization it is derived from a known positive total as used over total
times 100 (2048 used of 8192 total gives exactly 25), and with neither
available the bar percent is 0. -/
theorem mem_percent_preference (sample : DeviceSample) (meta : DeviceMetadata) :
    (∀ p, sample.mem_util_percent = some p → memPercentOf sample meta = p) ∧
    (sample.mem_util_percent = none →
      ∀ total, meta.memory_total_mib = some total → 0 < total →
        memPercentOf sample meta = pyOrZero sample.mem_used_mib / total * 100) ∧
    (sample.mem_util_percent = none → meta.memory_total_mib = none →
      memPercentOf sample meta = 0) ∧
    (sample.mem_util_percent = none →
      ∀ total, meta.memory_total_mib = some total → total ≤ 0 →
        memPercentOf sample meta = 0) ∧
    memPercentOf { timestamp := "", mem_used_mib := some 2048 }
      { memory_total_mib := some 8192 } = 25 :=
  ⟨fun p h => memPercentOf_reported sample meta p h,
   fun hu total ht hpos => memPercentOf_derived sample meta total hu ht hpos,
   fun hu ht => memPercentOf_no_total sample meta hu ht,
   fun hu total ht hnp => memPercentOf_nonpos_total sample meta total hu ht hnp,
   by
    rw [memPercentOf_derived _ _ 8192 rfl rfl (by norm_num)]
    norm_num [pyOrZero]⟩

/-- Witness for C5 at the concrete fallback input of the claim. -/
theorem mem_percent_preference_witness :
    memPercentOf { timestamp := "", mem_used_mib := some 2048 }
        { memory_total_mib := some 8192 } =
      pyOrZero (some 2048) / 8192 * 100 :=
  (mem_percent_preference { timestamp := "", mem_used_mib := some 2048 }
      { memory_total_mib := some 8192 }).2.1 rfl 8192 rfl (by norm_num)

/-- C1 counterexample: a sample whose `memUsedMiB` is absent has its memory
field rendered as the zero amount `  0.00 GiB`, which contains no `N/A`
placeholder — so an absent optional metric is rendered as a zero value. -/
theorem absent_mem_used_renders_zero :
    mem_lineOf { timestamp := "12:00" } {} = "  0.00 GiB" ∧
    ¬ ("N/A".data <:+: (mem_lineOf { timestamp := "12:00" } {}).data) := by
  have h : mem_lineOf { timestamp := "12:00" } {} = "  0.00 GiB" := by
    unfold mem_lineOf pyOrZero
    norm_num
    decide
  exact ⟨h, by rw [h]; decide⟩

/-- C1 amended: absent `powerWatts` and `tempC` render as the fixed-width
`N/A` placeholder; an absent `memUsedMiB` however renders as a zero amount
(the memory line starts with `  0.00 GiB`), and an absent `memUtilPercent`
with no known positive total (either no total at all, or a known zero or
negative total) renders the bar with percent 0. -/
theorem absent_optional_metric_rendering (sample : DeviceSample) (meta : DeviceMetadata) :
    (sample.power_watts = none → power_strOf sample = "  N/A  ") ∧
    (sample.temp_c = none → temp_strOf sample = "  N/A  ") ∧
    (sample.mem_used_mib = none → "  0.00 GiB".data <+: (mem_lineOf sample meta).data) ∧
    (sample.mem_util_percent = none → meta.memory_total_mib = none →
      memPercentOf sample meta = 0) ∧
    (sample.mem_util_percent = none →
      ∀ total, meta.memory_total_mib = some total → total ≤ 0 →
        memPercentOf sample meta = 0) := by
  refine ⟨fun h => ?_, fun h => ?_, fun h => ?_,
    fun hu ht => memPercentOf_no_total sample meta hu ht,
    fun hu total ht hnp => memPercentOf_nonpos_total sample meta total hu ht hnp⟩
  · simp [power_strOf, h]
  · simp [temp_strOf, h]
  · have hbase : pyFormatFixed 6 2 (pyOrZero sample.mem_used_mib / 1024) ++ " GiB" =
        "  0.00 GiB" := by
      rw [h]
      show pyFormatFixed 6 2 ((0 : ℚ) / 1024) ++ " GiB" = _
      norm_num
      decide
    obtain ⟨mname, mtot⟩ := meta
    rcases mtot with _ | total
    · simp only [mem_lineOf]
      rw [hbase]
    · simp only [mem_lineOf]
      split_ifs
      · rw [hbase, String.data_append]
        exact List.prefix_append _ _
      · rw [hbase]

/-- Witness for C1 amended at a sample with every metric absent, both with
no known total and with a known zero total. -/
theorem absent_optional_metric_rendering_witness :
    power_strOf blankSample = "  N/A  " ∧ temp_strOf blankSample = "  N/A  " ∧
    "  0.00 GiB".data <+: (mem_lineOf blankSample {}).data ∧
    memPercentOf blankSample {} = 0 ∧
    memPercentOf blankSample { memory_total_mib := some 0 } = 0 :=
  ⟨(absent_optional_metric_rendering blankSample {}).1 rfl,
   (absent_optional_metric_rendering blankSample {}).2.1 rfl,
   (absent_optional_metric_rendering blankSample {}).2.2.1 rfl,
   (absent_optional_metric_rendering blankSample {}).2.2.2.1 rfl rfl,
   (absent_optional_metric_rendering blankSample { memory_total_mib := some 0 }).2.2.2.2
     rfl 0 rfl (by norm_num)⟩

/-- C4: a line whose first field is the literal `Timestamp` is captured as
the active header and produces no sample (store unchanged); a line arriving
with no active header, or whose column count differs from the active header,
is silently dropped, leaving the whole loop state unchanged. -/
theorem header_capture_and_defensive_skip (st : LoopState) (line : String) :
    ((parse_csv_line line).head? = some "Timestamp" →
      stepLine st line = { headers := some (parse_csv_line line), store := st.store }) ∧
    (st.headers = none → (parse_csv_line line).head? ≠ some "Timestamp" →
      stepLine st line = st) ∧
    (∀ hs, st.headers = some hs → (parse_csv_line line).length ≠ hs.length →
      (parse_csv_line line).head? ≠ some "Timestamp" → stepLine st line = st) := by
  unfold stepLine
  rcases hp : parse_csv_line line with _ | ⟨f0, rest⟩
  · exact ⟨fun h => by simp at h, fun _ _ => rfl, fun _ _ _ _ => rfl⟩
  · refine ⟨fun h => ?_, fun hn hneq => ?_, fun hs hhs hlen hneq => ?_⟩
    · have hf : f0 = "Timestamp" := by simpa using h
      simp [stepParsed, hf]
    · have hf : f0 ≠ "Timestamp" := by simpa using hneq
      simp [stepParsed, hf, hn]
    · have hf : f0 ≠ "Timestamp" := by simpa using hneq
      simp only [stepParsed, hhs]
      rw [if_neg hf, if_pos hlen]

/-- Witness for C4: a header line is captured with the store unchanged, a
data line before any header is dropped, and a data line of the wrong width
is dropped. -/
theorem header_capture_and_defensive_skip_witness :
    stepLine initialLoopState "Timestamp,DeviceId\n" =
      { headers := some (parse_csv_line "Timestamp,DeviceId\n"), store := [] } ∧
    stepLine initialLoopState "0,2048\n" = initialLoopState ∧
    stepLine { headers := some ["Timestamp", "DeviceId"], store := [] } "1,2,3\n" =
      { headers := some ["Timestamp", "DeviceId"], store := [] } :=
  ⟨(header_capture_and_defensive_skip initialLoopState "Timestamp,DeviceId\n").1 (by decide),
   (header_capture_and_defensive_skip initialLoopState "0,2048\n").2.1 rfl (by decide),
   (header_capture_and_defensive_skip { headers := some ["Timestamp", "DeviceId"], store := [] }
      "1,2,3\n").2.2 ["Timestamp", "DeviceId"] rfl (by decide) (by decide)⟩

/-- C3: for a data row matching the active header width, a missing or
unparseable device id leaves the state unchanged; otherwise the row becomes
a sample whose metric fields are each read independently through `to_float`,
so one bad field never invalidates the others. In particular the header of
the claim followed by a row with device id 0, memory used 2048, missing
utilization, power 75.5 and temperature 61 yields the sample
(2048, none, 75.5, 61). -/
theorem data_row_field_independence (hs parsed : List String)
    (store : List (Int × DeviceSample))
    (hlen : parsed.length = hs.length) (hhead : parsed.head? ≠ some "Timestamp") :
    (parse_int (rowGet hs parsed "DeviceId") = none →
      stepParsed { headers := some hs, store := store } parsed =
        { headers := some hs, store := store }) ∧
    (∀ device_id, parse_int (rowGet hs parsed "DeviceId") = some device_id →
      stepParsed { headers := some hs, store := store } parsed =
        { headers := some hs,
          store := assocSet store device_id
            { timestamp := (rowGet hs parsed "Timestamp").getD ""
              mem_used_mib := to_float (rowGet hs parsed "GPU Memory Used (MiB)")
              mem_util_percent := to_float (rowGet hs parsed "GPU Memory Utilization (%)")
              power_watts := to_float (rowGet hs parsed "GPU Power (W)")
              temp_c := to_float (rowGet hs parsed "GPU Core Temperature (Celsius Degree)") } }) ∧
    stepLine (stepLine initialLoopState
        "Timestamp,DeviceId,GPU Memory Used (MiB),GPU Memory Utilization (%),GPU Power (W),GPU Core Temperature (Celsius Degree)\n")
      "2025-01-01 12:00:00,0,2048,,75.5,61\n" =
      { headers := some ["Timestamp", "DeviceId", "GPU Memory Used (MiB)",
          "GPU Memory Utilization (%)", "GPU Power (W)",
          "GPU Core Temperature (Celsius Degree)"],
        store := [(0, { timestamp := "2025-01-01 12:00:00", mem_used_mib := some 2048,
                        mem_util_percent := none, power_watts := some (mkRat 151 2),
                        temp_c := some 61 })] } := by
  have hconc :
      stepLine (stepLine initialLoopState
          "Timestamp,DeviceId,GPU Memory Used (MiB),GPU Memory Utilization (%),GPU Power (W),GPU Core Temperature (Celsius Degree)\n")
        "2025-01-01 12:00:00,0,2048,,75.5,61\n" =
        { headers := some ["Timestamp", "DeviceId", "GPU Memory Used (MiB)",
            "GPU Memory Utilization (%)", "GPU Power (W)",
            "GPU Core Temperature (Celsius Degree)"],
          store := [(0, { timestamp := "2025-01-01 12:00:00", mem_used_mib := some 2048,
                          mem_util_percent := none, power_watts := some (mkRat 151 2),
                          temp_c := some 61 })] } := by decide
  cases parsed with
  | nil =>
    refine ⟨fun _ => rfl, fun device_id h => ?_, hconc⟩
    simp [rowGet, parse_int, List.zip_nil_right] at h
  | cons f0 rest =>
    have hf : f0 ≠ "Timestamp" := by simpa using hhead
    refine ⟨fun h => ?_, fun device_id h => ?_, hconc⟩
    · simp [stepParsed, hf, hlen, h]
    · simp [stepParsed, hf, hlen, h]

/-- Witness for C3 at the concrete header and row of the claim. -/
theorem data_row_field_independence_witness :
    stepParsed
        { headers := some ["Timestamp", "DeviceId", "GPU Memory Used (MiB)",
            "GPU Memory Utilization (%)", "GPU Power (W)",
            "GPU Core Temperature (Celsius Degree)"],
          store := [] }
        ["2025-01-01 12:00:00", "0", "2048", "", "75.5", "61"] =
      { headers := some ["Timestamp", "DeviceId", "GPU Memory Used (MiB)",
          "GPU Memory Utilization (%)", "GPU Power (W)",
          "GPU Core Temperature (Celsius Degree)"],
        store := [(0, { timestamp := "2025-01-01 12:00:00", mem_used_mib := some 2048,
                        mem_util_percent := none, power_watts := some (mkRat 151 2),
                        temp_c := some 61 })] } :=
  (data_row_field_independence
      ["Timestamp", "DeviceId", "GPU Memory Used (MiB)", "GPU Memory Utilization (%)",
        "GPU Power (W)", "GPU Core Temperature (Celsius Degree)"]
      ["2025-01-01 12:00:00", "0", "2048", "", "75.5", "61"] []
      (by decide) (by decide)).2.1 0 (by decide)

lemma pyClamp_nonneg (p : ℚ) : 0 ≤ pyClamp p := le_max_left 0 _

lemma pyClamp_le_100 (p : ℚ) : pyClamp p ≤ 100 :=
  max_le (by norm_num) (min_le_left _ _)

lemma pyClamp_idem (p : ℚ) : pyClamp (pyClamp p) = pyClamp p := by
  have h1 := pyClamp_le_100 p
  have h2 := pyClamp_nonneg p
  show max 0 (min 100 (pyClamp p)) = pyClamp p
  rw [min_eq_right h1, max_eq_right h2]

lemma filledCount_le (p : ℚ) (w : Nat) : filledCount p w ≤ w := by
  unfold filledCount
  apply Int.toNat_le.mpr
  have hmul : pyClamp p / 100 * (w : ℚ) ≤ (w : ℚ) := by
    have hdiv : pyClamp p / 100 ≤ 1 := by
      rw [div_le_one (by norm_num : (0 : ℚ) < 100)]
      exact pyClamp_le_100 p
    calc pyClamp p / 100 * (w : ℚ) ≤ 1 * (w : ℚ) :=
          mul_le_mul_of_nonneg_right hdiv (by positivity)
      _ = (w : ℚ) := one_mul _
  calc ⌊pyClamp p / 100 * (w : ℚ)⌋ ≤ ⌊(w : ℚ)⌋ := Int.floor_le_floor hmul
    _ = (w : ℤ) := Int.floor_natCast w

/-- C7: `format_bar` clamps the percent to [0, 100] before computing the
filled-block count, so −5 renders identically to 0 and 105 identically to
100, and the filled and dimmed block counts always total exactly the bar
width. -/
theorem format_bar_clamps (p : ℚ) (w : Nat) :
    format_bar p w = format_bar (pyClamp p) w ∧
    format_bar (-5) w = format_bar 0 w ∧
    format_bar 105 w = format_bar 100 w ∧
    filledCount p w + remainingCount p w = w := by
  have key : ∀ q : ℚ, format_bar q w = format_bar (pyClamp q) w := by
    intro q
    simp only [format_bar, filledCount, remainingCount, pyClamp_idem]
  have heq : ∀ q r : ℚ, pyClamp q = pyClamp r → format_bar q w = format_bar r w := by
    intro q r h
    rw [key q, key r, h]
  refine ⟨key p, heq _ _ ?_, heq _ _ ?_, ?_⟩
  · show max 0 (min 100 (-5 : ℚ)) = max 0 (min 100 (0 : ℚ))
    rw [min_eq_right (by norm_num : (-5 : ℚ) ≤ 100),
      min_eq_right (by norm_num : (0 : ℚ) ≤ 100),
      max_eq_left (by norm_num : (-5 : ℚ) ≤ 0), max_self]
  · show max 0 (min 100 (105 : ℚ)) = max 0 (min 100 (100 : ℚ))
    rw [min_eq_left (by norm_num : (100 : ℚ) ≤ 105), min_self]
  · unfold remainingCount
    exact Nat.add_sub_cancel' (filledCount_le p w)

lemma resolveGo_all_fail (env : FsEnv) (cs : List String) :
    ∀ acc : List String, (∀ c ∈ cs, candidateFails env c = true) →
      resolveGo env cs acc = Except.error (resolveErrMsg (acc ++ cs)) := by
  induction cs with
  | nil => intro acc _; simp [resolveGo]
  | cons c rest ih =>
    intro acc h
    have hc := h c (List.mem_cons_self c rest)
    have hrest : ∀ x ∈ rest, candidateFails env x = true :=
      fun x hx => h x (List.mem_cons_of_mem c hx)
    unfold candidateFails at hc
    unfold resolveGo
    cases hb : isAbs c with
    | true =>
      simp only [hb, if_true] at hc
      simp only [hb, if_true]
      rw [Bool.not_eq_true'] at hc
      rw [hc]
      simp only [Bool.false_eq_true, if_false]
      rw [ih (acc ++ [c]) hrest, List.append_assoc]
      rfl
    | false =>
      simp only [hb, Bool.false_eq_true, if_false] at hc
      simp only [hb, Bool.false_eq_true, if_false]
      rw [Option.isNone_iff_eq_none] at hc
      rw [hc]
      rw [ih (acc ++ [c]) hrest, List.append_assoc]
      rfl

lemma mem_data_infix_pyJoin (sep : String) (l : List String) (c : String) (h : c ∈ l) :
    c.data <:+: (pyJoin sep l).data := by
  induction l with
  | nil => cases h
  | cons x xs ih =>
    cases xs with
    | nil =>
      have hx : c = x := by simpa using h
      subst hx
      exact List.infix_refl _
    | cons y ys =>
      rcases List.mem_cons.mp h with rfl | hmem
      · simp only [pyJoin, String.data_append, List.append_assoc]
        exact (List.prefix_append _ _).isInfix
      · refine (ih hmem).trans ⟨(x ++ sep).data, [], ?_⟩
        simp [pyJoin, String.data_append, List.append_assoc]

/-- C6: when every candidate fails to resolve (for the auto sentinel both
fallback names, otherwise the single requested name or path),
`resolve_command` raises a command-not-found error whose message names every
candidate tried, and the program exits with code 1, the message on the error
stream, having rendered nothing. -/
theorem resolve_failure_reports_all (env : FsEnv) (binary : String)
    (h : ∀ c ∈ pyCandidates binary, candidateFails env c = true) :
    resolve_command env binary = Except.error (resolveErrMsg (pyCandidates binary)) ∧
    (∀ c ∈ pyCandidates binary, c.data <:+: (resolveErrMsg (pyCandidates binary)).data) ∧
    mainStartup env binary =
      MainOutcome.exited 1 (resolveErrMsg (pyCandidates binary) ++ "\n") 0 := by
  have h1 : resolve_command env binary = Except.error (resolveErrMsg (pyCandidates binary)) := by
    unfold resolve_command
    simpa using resolveGo_all_fail env (pyCandidates binary) [] h
  refine ⟨h1, fun c hc => ?_, ?_⟩
  · refine (mem_data_infix_pyJoin ", " (pyCandidates binary) c hc).trans ?_
    exact ⟨"Unable to find any of: ".data,
      ". Set --cmd or XPUM_MONITOR_CMD to xpumcli/xpu-smi full path.".data,
      by simp [resolveErrMsg, String.data_append, List.append_assoc]⟩
  · unfold mainStartup
    rw [h1]

/-- Witness for C6: with neither fallback on the search path, the error
names both `xpumcli` and `xpu-smi` and the program exits 1 without
rendering. -/
theorem resolve_failure_reports_all_witness :
    resolve_command emptyEnv "auto" = Except.error (resolveErrMsg ["xpumcli", "xpu-smi"]) ∧
    "xpumcli".data <:+: (resolveErrMsg ["xpumcli", "xpu-smi"]).data ∧
    "xpu-smi".data <:+: (resolveErrMsg ["xpumcli", "xpu-smi"]).data ∧
    mainStartup emptyEnv "auto" =
      MainOutcome.exited 1 (resolveErrMsg ["xpumcli", "xpu-smi"] ++ "\n") 0 := by
  have hfail : ∀ c ∈ pyCandidates "auto", candidateFails emptyEnv c = true := by
    intro c _
    unfold candidateFails emptyEnv
    split <;> rfl
  have h := resolve_failure_reports_all emptyEnv "auto" hfail
  exact ⟨h.1, h.2.1 "xpumcli" (by decide), h.2.1 "xpu-smi" (by decide), h.2.2⟩

end XpuMonitor
